import Mathlib

/-!
Shallow embedding of the notebook
`notebooks/DrizzlePac/optimize_image_sampling/optimize_image_sampling.ipynb`.

The notebook is a linear pipeline over FITS files: it downloads exposures,
inspects header keywords, selects drizzle parameters from the MDRIZTAB
reference table, runs an external image-combination routine over a sweep of
`final_pixfrac` values, and evaluates the resulting weight maps.

Numeric header values and pixel data are modelled exactly over `ℚ`
(the notebook computes in floating point; the exact-arithmetic model keeps
the algebraic structure of every formula).  The one place the spec's claims
depend on a finite format — the `np.float16` arrays of the pixel-phase
cell — is modelled explicitly: `roundF16` performs IEEE binary16
round-to-nearest-even on every store into those arrays.  File-system
contents are modelled as explicit listings together with header-access
functions.
-/

namespace OptSampling

/-! ### Glob pattern matching

The notebook selects files with `glob.glob` at three places:
`'./mastDownload/HST/*/*fl?.fits'` (download cell), `'*fl?.fits'`
(header inspection), and `'f160w_0.[0-9]*drz.fits'` (evaluation cell).
We embed the fnmatch-style matching that `glob` performs on a single
path: `*` matches any run of characters other than `/` (glob's `*` does
not cross directory separators), `?` matches one character, and
`[a-b]` matches one character in the given range. -/

/-- Tokens of a compiled glob pattern. -/
inductive GlobTok : Type where
  | lit (c : Char)
  | star
  | anyChar
  | charRange (lo hi : Char)
deriving DecidableEq

/-- Compile a glob pattern (as a character list) to tokens.  Only the
simple `[a-b]` bracket form is supported, which covers every pattern the
notebook uses. -/
def compileGlob : List Char → List GlobTok
  | [] => []
  | '*' :: cs => GlobTok.star :: compileGlob cs
  | '?' :: cs => GlobTok.anyChar :: compileGlob cs
  | '[' :: lo :: '-' :: hi :: ']' :: cs => GlobTok.charRange lo hi :: compileGlob cs
  | c :: cs => GlobTok.lit c :: compileGlob cs

/-- Fuel-indexed matcher for compiled glob patterns.  Every recursive
call strictly decreases `|ts| + |s|`, so fuel `|ts| + |s| + 1` computes
the exact matching relation. -/
def tokMatchF : Nat → List GlobTok → List Char → Bool
  | 0, _, _ => false
  | _ + 1, [], [] => true
  | _ + 1, [], _ :: _ => false
  | n + 1, GlobTok.star :: ts, s =>
      tokMatchF n ts s ||
        (match s with
         | [] => false
         | c :: s' => c != '/' && tokMatchF n (GlobTok.star :: ts) s')
  | n + 1, GlobTok.anyChar :: ts, s =>
      (match s with
       | [] => false
       | _ :: s' => tokMatchF n ts s')
  | n + 1, GlobTok.charRange lo hi :: ts, s =>
      (match s with
       | [] => false
       | c :: s' => (lo ≤ c && c ≤ hi) && tokMatchF n ts s')
  | n + 1, GlobTok.lit p :: ts, s =>
      (match s with
       | [] => false
       | c :: s' => c == p && tokMatchF n ts s')

/-- Whether filename `s` matches glob pattern `pat`. -/
def globMatches (pat s : String) : Bool :=
  tokMatchF (pat.length + s.length + 1) (compileGlob pat.data) s.data

/-! ### FITS header values and file-system states

A FITS header maps keyword strings to values that are either strings or
numbers.  A file-system state records the directory listing together
with, for each file, the keyword lookup of extension 0 and extension 1
(the two extensions the notebook reads, via `fits.getval(f, kw, ext=·)`
and `fits.getheader(f, ·)`). -/

/-- A FITS header value: a string or a number (modelled exactly in `ℚ`). -/
inductive Value : Type where
  | str (s : String)
  | num (q : ℚ)
deriving DecidableEq

/-- Numeric content of a header value (numeric keywords hold `num` values). -/
def Value.toQ : Value → ℚ
  | Value.num q => q
  | Value.str _ => 0

/-- String content of a header value (string keywords hold `str` values). -/
def Value.toS : Value → String
  | Value.str s => s
  | Value.num _ => ""

/-- A file-system state as the notebook observes it: the working
directory listing plus header lookup for extension 0 and extension 1 of
each file. -/
structure FS : Type where
  listing : List String
  getval0 : String → String → Value
  getval1 : String → String → Value

/-- The input exposure list: `flt_files = sorted(glob.glob('*fl?.fits'))`. -/
def flt_files (fs : FS) : List String :=
  (fs.listing.filter (fun f => globMatches "*fl?.fits" f)).mergeSort

/-! ### Header-inspection step (summary table cell)

`keywords_ext0`/`keywords_ext1` and the per-file row loop, building an
astropy `Table` whose column names are `keywords_ext0 + keywords_ext1`
and whose rows are the per-file keyword values. -/

/-- Extension-0 keywords of the summary table. -/
def keywords_ext0 : List String :=
  ["ROOTNAME", "ASN_ID", "TARGNAME", "DETECTOR", "FILTER", "EXPTIME",
   "RA_TARG", "DEC_TARG", "POSTARG1", "POSTARG2", "DATE-OBS"]

/-- Extension-1 keywords of the summary table. -/
def keywords_ext1 : List String := ["ORIENTAT"]

/-- One row of the summary table: extension-0 keyword values followed by
extension-1 keyword values, for one file. -/
def summaryRow (hdr0 hdr1 : String → Value) : List Value :=
  keywords_ext0.map hdr0 ++ keywords_ext1.map hdr1

/-- A derived table: column names plus a list of rows. -/
structure DerivedTable : Type where
  names : List String
  rows : List (List Value)
deriving DecidableEq

/-- The header summary table: one row per file of `flt_files`, columns
named by `keywords_ext0 + keywords_ext1`. -/
def summaryTable (fs : FS) : DerivedTable :=
  { names := keywords_ext0 ++ keywords_ext1
    rows := (flt_files fs).map (fun f => summaryRow (fs.getval0 f) (fs.getval1 f)) }

/-! ### Pixel-phase cell

`plate_scale = fits.getval(flt_files[0], 'idcscale', ext=1)` and, per
file `i`, `x_phase[i] = abs(np.modf(postarg1[i] / plate_scale)[0])`
(same for `y` with `postarg2`).  `np.modf(x)[0]` is the signed
fractional part `x - trunc x`, where `trunc` rounds toward zero. -/

/-- Truncation toward zero, as used by `np.modf`. -/
def truncQ (x : ℚ) : ℤ := if 0 ≤ x then ⌊x⌋ else ⌈x⌉

/-- The fractional-part component `np.modf(x)[0] = x - trunc x`. -/
def modfFrac (x : ℚ) : ℚ := x - truncQ x

/-- The detector plate scale: the `idcscale` keyword of extension 1 of
the first (sorted) input file. -/
def plate_scale (fs : FS) : ℚ := (fs.getval1 ((flt_files fs).headD "") "idcscale").toQ

/-- The `postarg1`/`postarg2` extension-0 header values of each input file. -/
def postargsOf (fs : FS) : List (ℚ × ℚ) :=
  (flt_files fs).map (fun f => ((fs.getval0 f "postarg1").toQ, (fs.getval0 f "postarg2").toQ))

/-- The per-file loop filling `x_phase[i]` and `y_phase[i]`, at the
formula level: arithmetic is modelled exactly, before the float16
quantization the destination arrays apply on store (the stored values
are modelled by `phasesStoredLoop` below). -/
def phasesLoop (scale : ℚ) : List (ℚ × ℚ) → List (ℚ × ℚ)
  | [] => []
  | p :: ps => (|modfFrac (p.1 / scale)|, |modfFrac (p.2 / scale)|) :: phasesLoop scale ps

/-- The pixel-phase pairs `(x_phase[i], y_phase[i])` of the input files. -/
def phases (fs : FS) : List (ℚ × ℚ) := phasesLoop (plate_scale fs) (postargsOf fs)

/-! ### WCS-alignment inspection cell

Per file: `filename`; `DETECTOR`, `EXPTIME` from extension 0;
`WCSNAME`, `NMATCHES`, `RMS_RA`, `RMS_DEC` from extension 1 with the
RMS keywords rounded to 1 decimal; then
`np.round(hdr1[kw]/1000./det_scale[hdr0['DETECTOR']], 2)` for the
mas-to-pixel conversion.  A detector absent from `det_scale` raises a
`KeyError`, aborting the cell, which we model with `Except`. -/

/-- Python dictionary lookup, `none` standing for a `KeyError`. -/
def lookupDict (d : List (String × α)) (k : String) : Option α :=
  (d.find? (fun p => p.1 == k)).map Prod.snd

/-- The detector plate scales (arcsec/pixel) hard-coded by the notebook. -/
def det_scale : List (String × ℚ) :=
  [("IR", 1283 / 10000), ("UVIS", 396 / 10000), ("WFC", 5 / 100)]

/-- Extension-0 keywords of the WCS table. -/
def ext_0_kws : List String := ["DETECTOR", "EXPTIME"]

/-- Extension-1 keywords of the WCS table. -/
def ext_1_kws : List String := ["WCSNAME", "NMATCHES", "RMS_RA", "RMS_DEC"]

/-- Whether `sub` occurs as a contiguous substring at the head of `s`. -/
def listPrefixEq : List Char → List Char → Bool
  | [], _ => true
  | _ :: _, [] => false
  | a :: as, b :: bs => a == b && listPrefixEq as bs

/-- Whether `sub` occurs as a contiguous substring anywhere in `s`. -/
def listContainsSub (sub : List Char) : List Char → Bool
  | [] => listPrefixEq sub []
  | s@(_ :: rest) => listPrefixEq sub s || listContainsSub sub rest

/-- Python's `sub in s` on strings. -/
def strContains (s sub : String) : Bool := listContainsSub sub.data s.data

/-- Round half to even (the rounding `np.round`/`np.around` performs). -/
def roundHalfEven (x : ℚ) : ℤ :=
  if x - ⌊x⌋ < 1 / 2 then ⌊x⌋
  else if 1 / 2 < x - ⌊x⌋ then ⌊x⌋ + 1
  else if 2 ∣ ⌊x⌋ then ⌊x⌋ else ⌊x⌋ + 1

/-- NumPy rounding `np.round(x, d)`: round to `d` decimal places, half to even. -/
def npRound (x : ℚ) (d : Nat) : ℚ := (roundHalfEven (x * 10 ^ d) : ℚ) / 10 ^ d

/-! ### Float16 storage of the pixel-phase cell

The arrays `postarg1`, `postarg2`, `x_phase` and `y_phase` of the
pixel-phase cell are allocated with `dtype=np.float16`, so every value
assigned into them is quantized to IEEE binary16 on store.  We model
the divisions and `np.modf` at high precision (exactly, over `ℚ`) and
apply the binary16 round-to-nearest-even on each store. -/

/-- One row of the WCS-alignment table (the per-file slice of `col_dict`). -/
structure WcsRow : Type where
  filename : String
  cols0 : List Value
  cols1 : List Value
  rms_pix : List ℚ
deriving DecidableEq

/-- The per-file body of the WCS-table loop.  The `det_scale` lookup on
the file's `DETECTOR` raises a `KeyError` (modelled as `Except.error`)
when the detector is not a key of `det_scale`. -/
def wcsRowOf (f : String) (hdr0 hdr1 : String → Value) : Except String WcsRow :=
  match lookupDict det_scale (hdr0 "DETECTOR").toS with
  | none => Except.error (hdr0 "DETECTOR").toS
  | some scale =>
      Except.ok
        { filename := f
          cols0 := ext_0_kws.map hdr0
          cols1 := ext_1_kws.map (fun kw =>
            if strContains kw "RMS" then Value.num (npRound (hdr1 kw).toQ 1) else hdr1 kw)
          rms_pix := ["RMS_RA", "RMS_DEC"].map (fun kw =>
            npRound ((hdr1 kw).toQ / 1000 / scale) 2) }

/-- The WCS-table loop over a file list; the first `KeyError` aborts it. -/
def buildWcsRows (fs : FS) : List String → Except String (List WcsRow)
  | [] => Except.ok []
  | f :: rest =>
      match wcsRowOf f (fs.getval0 f) (fs.getval1 f) with
      | Except.error e => Except.error e
      | Except.ok r =>
          match buildWcsRows fs rest with
          | Except.error e => Except.error e
          | Except.ok rs => Except.ok (r :: rs)

/-- The WCS-alignment table over the input files (produced only when no
lookup failed). -/
def wcstable (fs : FS) : Except String (List WcsRow) := buildWcsRows fs (flt_files fs)

/-! ### Parameter-selection cell (`get_vals_from_mdriztab`) -/

/-- The default `kw_list` of `get_vals_from_mdriztab`. -/
def default_kw_list : List String :=
  ["driz_sep_bits", "combine_type", "driz_cr_snr", "driz_cr_scale", "final_bits"]

/-- The function `get_vals_from_mdriztab`, parameterised by the dictionary that
`drizzlepac.processInput.getMdriztabPars` returned: for each requested
keyword, `requested_params[k] = mdriz_dict[k]`, a missing key raising a
`KeyError`. -/
def get_vals_from_mdriztab (mdriz_dict : List (String × Value)) :
    List String → Except String (List (String × Value))
  | [] => Except.ok []
  | k :: ks =>
      match lookupDict mdriz_dict k with
      | none => Except.error k
      | some v =>
          match get_vals_from_mdriztab mdriz_dict ks with
          | Except.error e => Except.error e
          | Except.ok r => Except.ok ((k, v) :: r)

/-! ### The `final_pixfrac` sweep cell

`pixfracs = np.arange(0.1, 1.1, 0.1)` yields the ten values
0.1, 0.2, ..., 1.0 (as nearest binary floats), and
`outname = 'f160w_{:.1f}'.format(pixfrac)` formats each to one decimal
place, giving `f160w_0.1` ... `f160w_1.0`.  We index the sweep by the
tenths numerator `k = 1, ..., 10`, with exact pixfrac value `k / 10`. -/

/-- The formatting `'{:.1f}'.format(k / 10)` for `k = 1, ..., 10`. -/
def fmtTenth (k : Nat) : String := toString (k / 10) ++ "." ++ toString (k % 10)

/-- Tenths numerators of the swept pixfrac values.
`np.arange(0.1, 1.1, 0.1)` contains exactly ten floats (its length is
`ceil((1.1 - 0.1) / 0.1) = 10` in double arithmetic), the nearest
doubles to 0.1, 0.2, ..., 1.0; we index the sweep by the tenths
numerator `k`, whose exact pixfrac value is `k / 10`. -/
def pixfracsT : List Nat := [1, 2, 3, 4, 5, 6, 7, 8, 9, 10]

/-- The swept `final_pixfrac` values `np.arange(0.1, 1.1, 0.1)`. -/
def pixfracs : List ℚ := pixfracsT.map (fun (k : ℕ) => (k : ℚ) / 10)

/-- One `AstroDrizzle` invocation of the sweep: its `output` name and
its `final_pixfrac` argument. -/
structure DrizzleCall : Type where
  output : String
  final_pixfrac : ℚ
deriving DecidableEq

/-- The sweep loop: one call per pixfrac, with
`output = 'f160w_{:.1f}'.format(pixfrac)`. -/
def sweepCalls : List DrizzleCall :=
  pixfracsT.map (fun k =>
    { output := "f160w_" ++ fmtTenth k, final_pixfrac := (k : ℚ) / 10 })

/-- The combined science/weight file a `build=True` call writes:
`output + '_drz.fits'`. -/
def drzOutputFile (c : DrizzleCall) : String := c.output ++ "_drz.fits"

/-! ### Evaluation cell

`whtlist = glob.glob('f160w_0.[0-9]*drz.fits')`, then per matched file
the loop records `hdr['D001PIXF']` in `fraclist` and the ratio
`np.std(region) / np.median(region)` in `std_med`, where `region` is
`wht[ylims[0]:ylims[1], xlims[0]:xlims[1]]` with `xlims`/`ylims` fixed
before the loop.

For the sweep-table claims we model the working directory after the
sweep as `(filename, D001PIXF)` pairs: the sweep wrote one `_drz.fits`
file per call whose `D001PIXF` keyword holds that call's pixfrac, the
two earlier combinations wrote `f160w_noopt_drz.fits` (default pixfrac
1.0) and `f160w_opt_drz.fits` (pixfrac 0.8), and the downloaded `_flt`
exposures carry no `D001PIXF` keyword (placeholder 0; they are removed
by the glob filter before any header is read). -/

/-- The drizzled files the sweep writes, with their `D001PIXF` values. -/
def sweepDrzFiles : List (String × ℚ) :=
  sweepCalls.map (fun c => (drzOutputFile c, c.final_pixfrac))

/-- The working directory after the sweep: input exposures, the two
earlier combined images, and the sweep outputs. -/
def postSweepFiles : List (String × ℚ) :=
  [("ib1f19l6q_flt.fits", 0), ("ib1f19l7q_flt.fits", 0),
   ("ib1f19l8q_flt.fits", 0), ("ib1f19l9q_flt.fits", 0),
   ("f160w_noopt_drz.fits", 1), ("f160w_opt_drz.fits", 8 / 10)] ++ sweepDrzFiles

/-- The list `whtlist`: the files matching `'f160w_0.[0-9]*drz.fits'`. -/
def whtlist : List (String × ℚ) :=
  postSweepFiles.filter (fun p => globMatches "f160w_0.[0-9]*drz.fits" p.1)

/-- The array `fraclist`: the `D001PIXF` keyword read back from each file of
`whtlist`. -/
def fraclist : List ℚ := whtlist.map Prod.snd

/-- Python slice `l[a:b]` (for the in-range, non-negative bounds the
notebook produces). -/
def sliceList (a b : Nat) (l : List α) : List α := (l.drop a).take (b - a)

/-- The sub-region `wht[y0:y1, x0:x1]`, flattened (NumPy reductions over
a 2-D slice act on all its elements). -/
def subRegion (y0 y1 x0 x1 : Nat) (m : List (List ℚ)) : List ℚ :=
  ((sliceList y0 y1 m).map (sliceList x0 x1)).flatten

/-- NumPy mean `np.mean`. -/
def npMean (l : List ℚ) : ℚ := l.sum / l.length

/-- NumPy variance `np.var`: the mean squared deviation from the mean. -/
def npVar (l : List ℚ) : ℚ := npMean (l.map (fun x => (x - npMean l) ^ 2))

/-- NumPy standard deviation `np.std`: the square root of `np.var`. -/
noncomputable def npStd (l : List ℚ) : ℝ := Real.sqrt (npVar l)

/-- NumPy median `np.median`: middle element of the sorted data, or the mean of the
two middle elements when the length is even. -/
def npMedian (l : List ℚ) : ℚ :=
  let s := l.mergeSort
  if l.length % 2 = 1 then s.getD (l.length / 2) 0
  else (s.getD (l.length / 2 - 1) 0 + s.getD (l.length / 2) 0) / 2

/-- The evaluation loop filling `std_med`: per weight image,
`np.std(wht[y0:y1, x0:x1]) / np.median(wht[y0:y1, x0:x1])`, with the
slice bounds fixed before the loop. -/
noncomputable def std_medLoop (y0 y1 x0 x1 : Nat) : List (List (List ℚ)) → List ℝ
  | [] => []
  | w :: ws =>
      (npStd (subRegion y0 y1 x0 x1 w) / (npMedian (subRegion y0 y1 x0 x1 w) : ℝ)) ::
        std_medLoop y0 y1 x0 x1 ws

/-! ### File-system mutations performed by in-repo code

The download cell is the only in-repo code that mutates the file
system: it renames each downloaded exposure to its basename in the
working directory and then removes the `mastDownload/` tree.  Every
other cell only reads files or hands work to the external libraries. -/

/-- A file-system mutation performed directly by notebook code. -/
inductive FsOp : Type where
  | rename (src dst : String)
  | removeTree (dir : String)
deriving DecidableEq

/-- Python basename `os.path.split(p)[-1]`: the final path component,
the run of characters after the last `/`. -/
def basename (p : String) : String :=
  String.mk ((p.data.reverse.takeWhile (fun c => c != '/')).reverse)

/-- The file-system operations the notebook's own code performs, as a
function of the files present under `mastDownload/`:
`os.rename(flt, basename flt)` for each file matching
`'./mastDownload/HST/*/*fl?.fits'`, then
`shutil.rmtree('mastDownload/')`. -/
def inRepoFsOps (downloaded : List String) : List FsOp :=
  (downloaded.filter (fun f => globMatches "./mastDownload/HST/*/*fl?.fits" f)).map
      (fun f => FsOp.rename f (basename f)) ++
    [FsOp.removeTree "mastDownload/"]

/-! ### Concrete states used to instantiate the theorems -/

/-- A concrete file-system state: one input exposure plus one unrelated
file, with explicit header contents. -/
def fsA : FS :=
  { listing := ["junk.txt", "ib1f19l6q_flt.fits"]
    getval0 := fun _ kw =>
      if kw == "postarg1" then Value.num (3 / 2)
      else if kw == "postarg2" then Value.num (-(7 / 4))
      else if kw == "DETECTOR" then Value.str "IR"
      else Value.str "x"
    getval1 := fun _ kw =>
      if kw == "idcscale" then Value.num (1283 / 10000)
      else Value.num (21 / 10) }

/-- A state with the same listing and the same headers on the FITS
exposure as `fsA`, but different contents for the unrelated file
`junk.txt`. -/
def fsB : FS :=
  { listing := ["junk.txt", "ib1f19l6q_flt.fits"]
    getval0 := fun f kw => if f == "junk.txt" then Value.num 999 else fsA.getval0 f kw
    getval1 := fun f kw => if f == "junk.txt" then Value.num 999 else fsA.getval1 f kw }

/-- A concrete MDRIZTAB parameter dictionary holding the five requested
keywords plus an extra key that must not be copied. -/
def mdzDict : List (String × Value) :=
  [("driz_sep_bits", Value.num 528), ("combine_type", Value.str "minmed"),
   ("driz_cr_snr", Value.str "3.5 3.0"), ("driz_cr_scale", Value.str "1.2 0.7"),
   ("final_bits", Value.num 528), ("skysub", Value.num 1)]

/-- A concrete download listing for the download-cell operations. -/
def dlExample : List String := ["./mastDownload/HST/ib1f19l6q/ib1f19l6q_flt.fits"]

example : globMatches "f160w_0.[0-9]*drz.fits" "f160w_0.1_drz.fits" = true := by decide
example : globMatches "f160w_0.[0-9]*drz.fits" "f160w_1.0_drz.fits" = false := by decide
example : globMatches "f160w_0.[0-9]*drz.fits" "f160w_noopt_drz.fits" = false := by decide
example : globMatches "*fl?.fits" "ib1f19l6q_flt.fits" = true := by decide
example : globMatches "./mastDownload/HST/*/*fl?.fits"
    "./mastDownload/HST/ib1f19l6q/ib1f19l6q_flt.fits" = true := by decide

/-! ### Shared helper lemmas -/

/-- The pixel-phase loop computes, pointwise, the absolute fractional
part of each scaled offset. -/
lemma phasesLoop_eq_map (scale : ℚ) (l : List (ℚ × ℚ)) :
    phasesLoop scale l =
      l.map (fun p => (|modfFrac (p.1 / scale)|, |modfFrac (p.2 / scale)|)) := by
  induction l with
  | nil => rfl
  | cons p ps ih => simp [phasesLoop, ih]

/-- The exposures found in the concrete state `fsA`. -/
lemma flt_files_fsA : flt_files fsA = ["ib1f19l6q_flt.fits"] := by
  have h : fsA.listing.filter (fun f => globMatches "*fl?.fits" f) =
      ["ib1f19l6q_flt.fits"] := by decide
  unfold flt_files
  rw [h, List.mergeSort_singleton]

/-- The plate scale read from the concrete state `fsA`. -/
lemma plate_scale_fsA : plate_scale fsA = 1283 / 10000 := by
  unfold plate_scale
  rw [flt_files_fsA]
  rfl

/-- The pixel phases of the concrete state `fsA`. -/
lemma phases_fsA : phases fsA = [(887 / 1283, 821 / 1283)] := by
  have e1 : |modfFrac ((3 / 2 : ℚ) / (1283 / 10000))| = 887 / 1283 := by
    rw [show (3 / 2 : ℚ) / (1283 / 10000) = 15000 / 1283 by norm_num]
    unfold modfFrac truncQ
    rw [if_pos (by norm_num), show ⌊(15000 / 1283 : ℚ)⌋ = 11 by norm_num,
      abs_of_nonneg (by norm_num)]
    norm_num
  have e2 : |modfFrac ((-(7 / 4) : ℚ) / (1283 / 10000))| = 821 / 1283 := by
    rw [show (-(7 / 4) : ℚ) / (1283 / 10000) = -(17500 / 1283) by norm_num]
    unfold modfFrac truncQ
    rw [if_neg (by norm_num), Int.ceil_neg,
      show ⌊(17500 / 1283 : ℚ)⌋ = 13 by norm_num, abs_of_nonpos (by norm_num)]
    norm_num
  unfold phases postargsOf
  rw [flt_files_fsA, plate_scale_fsA]
  simp only [List.map_cons, List.map_nil, phasesLoop]
  rw [show (fsA.getval0 "ib1f19l6q_flt.fits" "postarg1").toQ = (3 / 2 : ℚ) from rfl,
    show (fsA.getval0 "ib1f19l6q_flt.fits" "postarg2").toQ = (-(7 / 4) : ℚ) from rfl, e1, e2]

/-- Success and membership in the hard-coded `det_scale` dictionary
coincide. -/
lemma det_scale_isSome_iff (d : String) :
    (lookupDict det_scale d).isSome = true ↔ d ∈ ["IR", "UVIS", "WFC"] := by
  by_cases h1 : d = "IR"
  · subst h1; decide
  by_cases h2 : d = "UVIS"
  · subst h2; decide
  by_cases h3 : d = "WFC"
  · subst h3; decide
  have e1 : (("IR" : String) == d) = false := beq_eq_false_iff_ne.mpr (fun he => h1 he.symm)
  have e2 : (("UVIS" : String) == d) = false := beq_eq_false_iff_ne.mpr (fun he => h2 he.symm)
  have e3 : (("WFC" : String) == d) = false := beq_eq_false_iff_ne.mpr (fun he => h3 he.symm)
  simp [lookupDict, det_scale, List.find?, e1, e2, e3, h1, h2, h3]

/-- The WCS-table loop output depends only on the headers of the files
it visits. -/
lemma buildWcsRows_congr (fs1 fs2 : FS) :
    ∀ l : List String,
      (∀ f ∈ l, fs1.getval0 f = fs2.getval0 f ∧ fs1.getval1 f = fs2.getval1 f) →
      buildWcsRows fs1 l = buildWcsRows fs2 l
  | [], _ => rfl
  | f :: rest, h => by
      have h0 := (h f (List.mem_cons_self f rest)).1
      have h1 := (h f (List.mem_cons_self f rest)).2
      have ih := buildWcsRows_congr fs1 fs2 rest (fun g hg => h g (List.mem_cons_of_mem f hg))
      simp only [buildWcsRows, h0, h1, ih]

/-- The WCS-table loop succeeds exactly when every visited file's
detector is a key of `det_scale`. -/
lemma buildWcsRows_ok_iff (fs : FS) :
    ∀ l : List String,
      (∃ t, buildWcsRows fs l = Except.ok t) ↔
        ∀ f ∈ l, (lookupDict det_scale ((fs.getval0 f "DETECTOR").toS)).isSome = true := by
  intro l
  induction l with
  | nil => simp [buildWcsRows]
  | cons f rest ih =>
    rcases hdet : lookupDict det_scale ((fs.getval0 f "DETECTOR").toS) with _ | s
    · constructor
      · rintro ⟨t, ht⟩
        exfalso
        simp [buildWcsRows, wcsRowOf, hdet] at ht
      · intro hall
        exfalso
        have := (List.forall_mem_cons.mp hall).1
        rw [hdet] at this
        simp at this
    · rcases hrest : buildWcsRows fs rest with e | t
      · constructor
        · rintro ⟨t, ht⟩
          exfalso
          simp [buildWcsRows, wcsRowOf, hdet, hrest] at ht
        · intro hall
          exfalso
          rcases ih.mpr (List.forall_mem_cons.mp hall).2 with ⟨t, ht⟩
          rw [hrest] at ht
          exact Except.noConfusion ht
      · have hr : ∀ g ∈ rest,
            (lookupDict det_scale ((fs.getval0 g "DETECTOR").toS)).isSome = true :=
          ih.mp ⟨t, hrest⟩
        simp [buildWcsRows, wcsRowOf, hdet, hrest, List.forall_mem_cons]
        exact hr

/-- The swept pixfrac values, written as plain rational literals. -/
lemma pixfracs_eq :
    pixfracs = [1 / 10, 2 / 10, 3 / 10, 4 / 10, 5 / 10, 6 / 10, 7 / 10, 8 / 10, 9 / 10, 1] := by
  have h : pixfracs = [((1 : ℕ) : ℚ) / 10, ((2 : ℕ) : ℚ) / 10, ((3 : ℕ) : ℚ) / 10,
      ((4 : ℕ) : ℚ) / 10, ((5 : ℕ) : ℚ) / 10, ((6 : ℕ) : ℚ) / 10, ((7 : ℕ) : ℚ) / 10,
      ((8 : ℕ) : ℚ) / 10, ((9 : ℕ) : ℚ) / 10, ((10 : ℕ) : ℚ) / 10] := rfl
  rw [h]
  push_cast
  norm_num

/-- The `D001PIXF` values of the files the evaluation glob matched: the
glob keeps only the nine files `f160w_0.1_drz.fits` ...
`f160w_0.9_drz.fits`. -/
lemma fraclist_eq :
    fraclist = [1 / 10, 2 / 10, 3 / 10, 4 / 10, 5 / 10, 6 / 10, 7 / 10, 8 / 10, 9 / 10] := by
  have h : fraclist = [((1 : ℕ) : ℚ) / 10, ((2 : ℕ) : ℚ) / 10, ((3 : ℕ) : ℚ) / 10,
      ((4 : ℕ) : ℚ) / 10, ((5 : ℕ) : ℚ) / 10, ((6 : ℕ) : ℚ) / 10, ((7 : ℕ) : ℚ) / 10,
      ((8 : ℕ) : ℚ) / 10, ((9 : ℕ) : ℚ) / 10] := rfl
  rw [h]
  push_cast
  norm_num

/-! ### Claim theorems -/

/-- C1 (as stated, refuted): the sweep table is NOT total over the ten
swept pixfrac values.  The value 1.0 is swept (`1 ∈ pixfracs`) but the
glob `'f160w_0.[0-9]*drz.fits'` does not match `f160w_1.0_drz.fits`, so
the table built from the matched files has no entry for pixfrac 1.0. -/
theorem C1_sweep_total_counterexample :
    (1 : ℚ) ∈ pixfracs ∧ fraclist.count (1 : ℚ) = 0 := by
  constructor
  · rw [pixfracs_eq]
    simp
  · rw [fraclist_eq]
    norm_num [List.count_cons, beq_iff_eq]

/-- C1 (amended): the parameter-sweep table contains exactly one entry
for each swept pixfrac value except 1.0, for which it contains none,
because `f160w_1.0_drz.fits` falls outside the glob
`'f160w_0.[0-9]*drz.fits'`. -/
theorem C1_sweep_table_amended :
    ∀ q ∈ pixfracs, fraclist.count q = if q = 1 then 0 else 1 := by
  intro q hq
  rw [pixfracs_eq] at hq
  rw [fraclist_eq]
  fin_cases hq <;> norm_num [List.count_cons, beq_iff_eq]

/-- Witness for C1 (amended) at pixfrac 0.1. -/
theorem C1_sweep_table_amended_witness :
    fraclist.count (1 / 10 : ℚ) = if (1 / 10 : ℚ) = 1 then 0 else 1 :=
  C1_sweep_table_amended (1 / 10) (by rw [pixfracs_eq]; exact List.mem_cons_self _ _)

/-- C2 (as stated, refuted): the notebook's own code is not free of
file-system mutations: even with nothing downloaded, the download cell
removes the `mastDownload/` tree. -/
theorem C2_no_fs_ops_counterexample : ¬ inRepoFsOps [] = [] := by decide

/-- C2 (amended): the notebook's own code does mutate the file system,
but only in the download cell, and every such operation is either the
rename of a downloaded exposure matching
`'./mastDownload/HST/*/*fl?.fits'` to its basename or the removal of
the `mastDownload/` tree. -/
theorem C2_fs_ops_amended :
    ∀ (downloaded : List String), ∀ op ∈ inRepoFsOps downloaded,
      (∃ f ∈ downloaded, globMatches "./mastDownload/HST/*/*fl?.fits" f = true ∧
        op = FsOp.rename f (basename f)) ∨ op = FsOp.removeTree "mastDownload/" := by
  intro d op hop
  unfold inRepoFsOps at hop
  rcases List.mem_append.mp hop with h | h
  · rcases List.mem_map.mp h with ⟨f, hf, rfl⟩
    rcases List.mem_filter.mp hf with ⟨hfd, hmatch⟩
    exact Or.inl ⟨f, hfd, hmatch, rfl⟩
  · exact Or.inr (by simpa using h)

/-- Witness for C2 (amended): the rename of the downloaded exposure in
`dlExample` is one of the allowed operations. -/
theorem C2_fs_ops_amended_witness :
    (∃ f ∈ dlExample, globMatches "./mastDownload/HST/*/*fl?.fits" f = true ∧
      FsOp.rename "./mastDownload/HST/ib1f19l6q/ib1f19l6q_flt.fits" "ib1f19l6q_flt.fits" =
        FsOp.rename f (basename f)) ∨
    FsOp.rename "./mastDownload/HST/ib1f19l6q/ib1f19l6q_flt.fits" "ib1f19l6q_flt.fits" =
      FsOp.removeTree "mastDownload/" :=
  C2_fs_ops_amended dlExample
    (FsOp.rename "./mastDownload/HST/ib1f19l6q/ib1f19l6q_flt.fits" "ib1f19l6q_flt.fits")
    (by decide)

/-- C3: for every input exposure, `x_phase` is the absolute fractional
part of `POSTARG1` divided by the plate scale (the `idcscale` keyword
of the first file), and `y_phase` the same for `POSTARG2`. -/
theorem C3_pixel_phase_formula (fs : FS) :
    phases fs = (flt_files fs).map (fun f =>
      (|modfFrac ((fs.getval0 f "postarg1").toQ / plate_scale fs)|,
       |modfFrac ((fs.getval0 f "postarg2").toQ / plate_scale fs)|)) := by
  unfold phases postargsOf
  rw [phasesLoop_eq_map, List.map_map]
  rfl

/-- C4: the evaluation loop computes, for every weight image of the
sweep, the standard deviation of the fixed sub-region
`wht[y0:y1, x0:x1]` divided by the median of that same sub-region; the
slice bounds are the same for every image. -/
theorem C4_std_med_formula (y0 y1 x0 x1 : Nat) (whts : List (List (List ℚ))) :
    std_medLoop y0 y1 x0 x1 whts = whts.map (fun w =>
      npStd (subRegion y0 y1 x0 x1 w) / (npMedian (subRegion y0 y1 x0 x1 w) : ℝ)) := by
  induction whts with
  | nil => rfl
  | cons w ws ih => simp only [std_medLoop, List.map_cons, ih]

/-- C5: when every requested keyword is present in the MDRIZTAB
dictionary, `get_vals_from_mdriztab` returns a mapping whose keys are
exactly `kw_list` (no other keys) and whose value at each key is the
dictionary's value there. -/
theorem C5_mdriztab_extraction (mdriz_dict : List (String × Value)) (kw_list : List String)
    (h : ∀ k ∈ kw_list, (lookupDict mdriz_dict k).isSome = true) :
    ∃ r, get_vals_from_mdriztab mdriz_dict kw_list = Except.ok r ∧
      r.map Prod.fst = kw_list ∧ ∀ p ∈ r, lookupDict mdriz_dict p.1 = some p.2 := by
  revert h
  induction kw_list with
  | nil => exact fun _ => ⟨[], rfl, rfl, by simp⟩
  | cons k ks ih =>
    intro h
    have hk := h k (List.mem_cons_self k ks)
    rcases Option.isSome_iff_exists.mp hk with ⟨v, hv⟩
    rcases ih (fun g hg => h g (List.mem_cons_of_mem k hg)) with ⟨r, hr, hmap, hvals⟩
    refine ⟨(k, v) :: r, ?_, ?_, ?_⟩
    · simp [get_vals_from_mdriztab, hv, hr]
    · simp [hmap]
    · intro p hp
      rcases List.mem_cons.mp hp with rfl | hp'
      · exact hv
      · exact hvals p hp'

/-- Witness for C5 on a concrete dictionary and the default keyword
list. -/
theorem C5_mdriztab_extraction_witness :
    ∃ r, get_vals_from_mdriztab mdzDict default_kw_list = Except.ok r ∧
      r.map Prod.fst = default_kw_list ∧ ∀ p ∈ r, lookupDict mdzDict p.1 = some p.2 :=
  C5_mdriztab_extraction mdzDict default_kw_list (by decide)

/-- C6: the header summary table has exactly one row per input exposure
(in sorted-filename order) and its columns are exactly the eleven
extension-0 keywords followed by `ORIENTAT`. -/
theorem C6_summary_table_shape (fs : FS) :
    (summaryTable fs).rows.length = (flt_files fs).length ∧
    (summaryTable fs).names =
      ["ROOTNAME", "ASN_ID", "TARGNAME", "DETECTOR", "FILTER", "EXPTIME",
       "RA_TARG", "DEC_TARG", "POSTARG1", "POSTARG2", "DATE-OBS", "ORIENTAT"] ∧
    (summaryTable fs).rows =
      (flt_files fs).map (fun f => summaryRow (fs.getval0 f) (fs.getval1 f)) ∧
    List.Sorted (· ≤ ·) (flt_files fs) := by
  refine ⟨?_, rfl, rfl, ?_⟩
  · simp [summaryTable]
  · unfold flt_files
    exact List.sorted_mergeSort' _

/-- C7: the two inspection steps are deterministic and stateless: their
tables are functions of the directory listing and the headers of the
matched exposures alone, so two states agreeing on those produce
identical tables. -/
theorem C7_inspection_deterministic (fs1 fs2 : FS)
    (hlist : fs1.listing = fs2.listing)
    (hagree : ∀ f ∈ flt_files fs1,
      fs1.getval0 f = fs2.getval0 f ∧ fs1.getval1 f = fs2.getval1 f) :
    summaryTable fs1 = summaryTable fs2 ∧ wcstable fs1 = wcstable fs2 := by
  have hfl : flt_files fs1 = flt_files fs2 := by
    unfold flt_files
    rw [hlist]
  constructor
  · unfold summaryTable
    have hrows : (flt_files fs1).map (fun f => summaryRow (fs1.getval0 f) (fs1.getval1 f)) =
        (flt_files fs2).map (fun f => summaryRow (fs2.getval0 f) (fs2.getval1 f)) := by
      rw [← hfl]
      exact List.map_congr_left (fun f hf => by rw [(hagree f hf).1, (hagree f hf).2])
    rw [hrows]
  · unfold wcstable
    rw [← hfl]
    exact buildWcsRows_congr fs1 fs2 (flt_files fs1) hagree

/-- Witness for C7: two states differing only in the contents of the
non-FITS file `junk.txt` produce identical tables. -/
theorem C7_inspection_deterministic_witness :
    summaryTable fsA = summaryTable fsB ∧ wcstable fsA = wcstable fsB :=
  C7_inspection_deterministic fsA fsB rfl (by
    intro f hf
    rw [flt_files_fsA] at hf
    have hf' : f = "ib1f19l6q_flt.fits" := by simpa using hf
    subst hf'
    exact ⟨funext fun kw => rfl, funext fun kw => rfl⟩)

/-- C8: the WCS-alignment step handles exactly the detectors `IR`,
`UVIS` and `WFC`: the `det_scale` lookup succeeds exactly on that set,
and the alignment table is produced exactly when every input file's
detector lies in it (otherwise the step fails with a lookup error). -/
theorem C8_detector_domain :
    (∀ d : String, (lookupDict det_scale d).isSome = true ↔ d ∈ ["IR", "UVIS", "WFC"]) ∧
    (∀ fs : FS, (∃ t, wcstable fs = Except.ok t) ↔
      ∀ f ∈ flt_files fs, (fs.getval0 f "DETECTOR").toS ∈ ["IR", "UVIS", "WFC"]) := by
  refine ⟨det_scale_isSome_iff, fun fs => ?_⟩
  unfold wcstable
  rw [buildWcsRows_ok_iff fs (flt_files fs)]
  constructor
  · intro h f hf
    exact (det_scale_isSome_iff _).mp (h f hf)
  · intro h f hf
    exact (det_scale_isSome_iff _).mpr (h f hf)

/-- Witness for C8: the state `fsA` (an `IR` exposure) yields a table. -/
theorem C8_detector_domain_witness : ∃ t, wcstable fsA = Except.ok t :=
  (C8_detector_domain.2 fsA).mpr (by
    intro f hf
    rw [flt_files_fsA] at hf
    have hf' : f = "ib1f19l6q_flt.fits" := by simpa using hf
    subst hf'
    rw [show (fsA.getval0 "ib1f19l6q_flt.fits" "DETECTOR").toS = "IR" from rfl]
    decide)

/-- C9: the pixfrac sweep performs exactly ten image-combination calls,
one per swept pixfrac value, with pairwise distinct output names
`f160w_0.1` ... `f160w_1.0`, hence pairwise distinct `_drz.fits`
output files. -/
theorem C9_sweep_calls_shape :
    sweepCalls.length = 10 ∧
    sweepCalls.map (fun c => c.final_pixfrac) = pixfracs ∧
    sweepCalls.map (fun c => c.output) =
      ["f160w_0.1", "f160w_0.2", "f160w_0.3", "f160w_0.4", "f160w_0.5",
       "f160w_0.6", "f160w_0.7", "f160w_0.8", "f160w_0.9", "f160w_1.0"] ∧
    (sweepCalls.map drzOutputFile).Nodup := by
  refine ⟨rfl, ?_, by decide, by decide⟩
  unfold sweepCalls pixfracs
  rw [List.map_map]
  rfl

end OptSampling
